import Mathlib

/-!
Verification of the patient-registry core (`project/main.py`, `project/signup.py`).

The embedding models:
* the `Patient` row (`main.py`, class `Patient`),
* the WTForms `Signup` and `Search` forms and their validators (`signup.py`),
* the `/signup` and `/search` POST handlers (`main.py`, `register_routes`),
* the persistence layer as a list of rows, with an explicit fault flag for
  the `try/except` blocks around the database operations, and with the
  `NID` primary-key uniqueness constraint enforced at commit time.

Raw form input arrives as strings; `validate_on_submit` both validates the
fields and coerces the birth date (`DateField`, format `%Y-%m-%d`).
-/

namespace PatientRegistry

/-- A calendar date as produced by the form's `DateField` coercion. -/
structure DateVal where
  year : Nat
  month : Nat
  day : Nat
  deriving DecidableEq, Repr

/-- One stored row of the `Patient` table (`main.py`).  The source declares
`NID` as the integer primary key but the form delivers it as a string and the
handler compares it by equality, so the key is kept as the raw token. -/
structure Patient where
  NID : String
  username : String
  password : String
  mail : String
  Fname : String
  Lname : String
  BD : DateVal
  deriving DecidableEq, Repr

/-- The raw (string-valued) data of the `Signup` form (`signup.py`). -/
structure Signup where
  username : String
  email : String
  password : String
  Re_password : String
  Fname : String
  Lname : String
  NID : String
  BD : String
  deriving DecidableEq, Repr

/-- The raw data of the `Search` form (`signup.py`). -/
structure Search where
  NID : String
  deriving DecidableEq, Repr

/-- The persisted table of patient rows. -/
abbrev Store := List Patient

/-- Splits a character list at every occurrence of the separator, keeping
empty groups (the behavior of splitting a string on a single character). -/
def splitOnChar (sep : Char) : List Char → List (List Char)
  | [] => [[]]
  | c :: rest =>
    let r := splitOnChar sep rest
    if c = sep then [] :: r
    else
      match r with
      | [] => [[c]]
      | g :: gs => (c :: g) :: gs

/-- Value of a list of decimal digit characters. -/
def digitsToNat (l : List Char) : Nat :=
  l.foldl (fun n c => n * 10 + (c.toNat - 48)) 0

/-- Days of each month, with the Gregorian leap rule, as checked by
`datetime.date` when `strptime` builds the parsed date. -/
def daysInMonth (y m : Nat) : Nat :=
  if m = 2 then
    if (y % 4 = 0 && y % 100 != 0) || y % 400 = 0 then 29 else 28
  else if m = 4 || m = 6 || m = 9 || m = 11 then 30 else 31

/-- Parsing of the birth-date string with format `%Y-%m-%d` (`DateField` in
`signup.py`): a four-digit year, a one-or-two-digit month and day, the whole
string consumed, and the triple accepted by `datetime.date` (year at least 1,
month 1..12, day within the month). -/
def parseDate (s : String) : Option DateVal :=
  match splitOnChar '-' s.toList with
  | [ys, ms, ds] =>
    if ys.length = 4 && ys.all Char.isDigit
        && 1 ≤ ms.length && ms.length ≤ 2 && ms.all Char.isDigit
        && 1 ≤ ds.length && ds.length ≤ 2 && ds.all Char.isDigit then
      let y := digitsToNat ys
      let m := digitsToNat ms
      let d := digitsToNat ds
      if 1 ≤ y && 1 ≤ m && m ≤ 12 && 1 ≤ d && d ≤ daysInMonth y m then
        some ⟨y, m, d⟩
      else none
    else none
  | _ => none

/-- Syntactic email check standing for the `Email()` validator of
`signup.py` (the exact grammar lives in the third-party `email_validator`
package): one `@`, a non-empty local part over a plain character set, and a
dotted domain of non-empty alphanumeric-or-dash labels. -/
def isValidEmail (s : String) : Bool :=
  match splitOnChar '@' s.toList with
  | [lp, dom] =>
    !lp.isEmpty && lp.all (fun c => c.isAlphanum || c = '.' || c = '_' || c = '-' || c = '+')
      && (let labels := splitOnChar '.' dom
          2 ≤ labels.length && labels.all (fun l => !l.isEmpty && l.all (fun c => c.isAlphanum || c = '-')))
  | _ => false

/-- The `DataRequired` validator: the submitted value contains at least one
non-whitespace character (Python: the field is falsy or strips to empty). -/
def dataRequired (s : String) : Bool :=
  !(s.toList.all Char.isWhitespace)

/-- The field validators of the `Signup` form (`signup.py`, class `Signup`):
`DataRequired` on every string field, `Length` bounds, the `Email` syntax
check, and `EqualTo("password")` on the confirmation field. -/
def validateSignupFields (f : Signup) : Bool :=
  dataRequired f.username && f.username.length ≤ 20
    && dataRequired f.email && isValidEmail f.email
    && dataRequired f.password && 3 ≤ f.password.length && f.password.length ≤ 20
    && dataRequired f.Re_password && f.Re_password == f.password
    && dataRequired f.Fname && f.Fname.length ≤ 10
    && dataRequired f.Lname && f.Lname.length ≤ 10
    && dataRequired f.NID

/-- Full success condition of `form.validate_on_submit()` for the signup
form: every field validator passes and the birth date coerces. -/
def validateSignup (f : Signup) : Bool :=
  validateSignupFields f && (parseDate f.BD).isSome

/-- User-visible result of one POST to `/signup` (`main.py`): the form
re-rendered with field errors, the form re-rendered with
"This id is already IN", the success page `out.html` with its output string,
or the form re-rendered with the generic database-error message. -/
inductive SignupOutcome
  | validationError
  | duplicate
  | created (output : String)
  | dbError
  deriving DecidableEq, Repr

/-- User-visible result of one POST to `/search` (`main.py`):
`out.html` with "Cant Find a User", `out.html` with the found-patient string,
or the form re-rendered with the generic database-error message. -/
inductive SearchOutcome
  | notFound
  | found (output : String)
  | dbError
  deriving DecidableEq, Repr

/-- Whether a row with the given `NID` is present
(`Patient.query.filter_by(NID=...).first() is not None`). -/
def hasNID (st : Store) (nid : String) : Bool :=
  (st.find? (fun p => p.NID == nid)).isSome

/-- `Patient.query.filter_by(NID=...).first()`: the first row with a matching
key, or an unexpected persistence fault when the flag is set. -/
def dbQuery (fault : Bool) (st : Store) (nid : String) : Except String (Option Patient) :=
  if fault then Except.error "database unavailable"
  else Except.ok (st.find? (fun p => p.NID == nid))

/-- `db.session.add(patient); db.session.commit()`: appends the row, or
raises — an unexpected fault when the flag is set, or an `IntegrityError`
when the `NID` primary-key constraint of the `Patient` table is violated. -/
def dbCommit (fault : Bool) (st : Store) (p : Patient) : Except String Store :=
  if fault then Except.error "database unavailable"
  else if hasNID st p.NID then Except.error "IntegrityError: UNIQUE constraint failed"
  else Except.ok (st ++ [p])

/-- The `Patient` row built from the validated form in the signup handler. -/
def mkPatient (f : Signup) (bd : DateVal) : Patient :=
  ⟨f.NID, f.username, f.password, f.email, f.Fname, f.Lname, bd⟩

/-- Zero-padded rendering of the date, as `str` on a Python `datetime.date`
(ISO format) produces for the stored `BD` value. -/
def DateVal.toIso (d : DateVal) : String :=
  let y4 := toString d.year
  let y := "".pushn '0' (4 - y4.length) ++ y4
  let m2 := toString d.month
  let m := "".pushn '0' (2 - m2.length) ++ m2
  let d2 := toString d.day
  let dd := "".pushn '0' (2 - d2.length) ++ d2
  y ++ "-" ++ m ++ "-" ++ dd

/-- The success string rendered into `out.html` by the signup handler. -/
def renderCreated (username NID email Fname Lname : String) (BD : DateVal) : String :=
  let bd := BD.toIso
  s!"user is {username} <br> UID is {NID} <br> mail is {email} <br> Fname is {Fname} <br> Lname is {Lname} <br> Birthday is {bd}"

/-- The body of the `try` block of the signup handler (`main.py`): query the
key, and when no row exists and the two password fields agree, build the
`Patient` row and commit it. -/
def signupTry (fault : Bool) (st : Store) (f : Signup) (bd : DateVal) :
    Except String (SignupOutcome × Store) :=
  match dbQuery fault st f.NID with
  | Except.error e => Except.error e
  | Except.ok patient =>
    if patient.isNone && (f.password == f.Re_password) then
      match dbCommit fault st (mkPatient f bd) with
      | Except.error e => Except.error e
      | Except.ok st2 =>
        Except.ok (SignupOutcome.created
          (renderCreated f.username f.NID f.email f.Fname f.Lname bd), st2)
    else
      Except.ok (SignupOutcome.duplicate, st)

/-- The POST branch of the `/signup` handler (`main.py`):
`validate_on_submit` (field validators plus date coercion) guards the `try`
block; any exception from the database layer is caught and surfaced as the
generic database-error message, leaving the store as it was. -/
def signup (fault : Bool) (st : Store) (f : Signup) : SignupOutcome × Store :=
  match parseDate f.BD with
  | none => (SignupOutcome.validationError, st)
  | some bd =>
    if validateSignupFields f then
      match signupTry fault st f bd with
      | Except.ok r => r
      | Except.error _ => (SignupOutcome.dbError, st)
    else (SignupOutcome.validationError, st)

/-- The found-patient string rendered into `out.html` by the search handler:
only the username, the key and the mail address are shown. -/
def renderFound (p : Patient) : String :=
  let u := p.username
  let n := p.NID
  let m := p.mail
  s!"User is {u} <br> UID is {n} <br> Mail is {m}"

/-- The body of the `try` block of the search handler (`main.py`). -/
def searchTry (fault : Bool) (st : Store) (f : Search) : Except String SearchOutcome :=
  match dbQuery fault st f.NID with
  | Except.error e => Except.error e
  | Except.ok none => Except.ok SearchOutcome.notFound
  | Except.ok (some p) => Except.ok (SearchOutcome.found (renderFound p))

/-- The POST branch of the `/search` handler (`main.py`).  Note that the
handler never invokes the `Search` form's validators: the raw `NID` token
goes straight into the query. -/
def search (fault : Bool) (st : Store) (f : Search) : SearchOutcome :=
  match searchTry fault st f with
  | Except.ok r => r
  | Except.error _ => SearchOutcome.dbError

/-!
Interleaving model of two concurrent `/signup` requests for the same
identifier.  Each request, already past validation, performs two store
operations in order: the uniqueness query (`dbQuery`) and, when the query saw
no row, the commit (`dbCommit`), which enforces the `NID` primary-key
constraint and raises an `IntegrityError` caught by the handler's `except`
block.  A schedule is the list of which thread takes the next step.
-/

/-- Progress of one in-flight signup request: whether its uniqueness query
has run (and what it saw), and its final outcome once reached. -/
structure ThreadState where
  checked : Option Bool
  outcome : Option SignupOutcome
  deriving DecidableEq, Repr

/-- A request that has not yet touched the store. -/
def initThread : ThreadState := ⟨none, none⟩

/-- One store operation of the request inserting row `p`: first the
uniqueness query (a present row yields the duplicate outcome at once), then
the commit, whose `IntegrityError` is caught as the generic database-error
outcome.  A finished thread does nothing. -/
def threadStep (p : Patient) (ts : ThreadState) (st : Store) : ThreadState × Store :=
  match ts.checked, ts.outcome with
  | none, _ =>
    match dbQuery false st p.NID with
    | Except.error _ => (⟨ts.checked, some SignupOutcome.dbError⟩, st)
    | Except.ok (some _) => (⟨some true, some SignupOutcome.duplicate⟩, st)
    | Except.ok none => (⟨some false, ts.outcome⟩, st)
  | some false, none =>
    match dbCommit false st p with
    | Except.error _ => (⟨ts.checked, some SignupOutcome.dbError⟩, st)
    | Except.ok st2 =>
      (⟨ts.checked, some (SignupOutcome.created
        (renderCreated p.username p.NID p.mail p.Fname p.Lname p.BD))⟩, st2)
  | _, _ => (ts, st)

/-- The shared store together with the two in-flight requests. -/
structure RaceState where
  t1 : ThreadState
  t2 : ThreadState
  store : Store
  deriving DecidableEq, Repr

/-- One scheduling step: `true` lets the first request move. -/
def raceStep (p1 p2 : Patient) (s : RaceState) (choice : Bool) : RaceState :=
  if choice then
    let r := threadStep p1 s.t1 s.store
    ⟨r.1, s.t2, r.2⟩
  else
    let r := threadStep p2 s.t2 s.store
    ⟨s.t1, r.1, r.2⟩

/-- Runs a schedule from the given race state. -/
def raceRun (p1 p2 : Patient) (sched : List Bool) (s : RaceState) : RaceState :=
  match sched with
  | [] => s
  | c :: rest => raceRun p1 p2 rest (raceStep p1 p2 s c)

/-- Whether an outcome is the success page. -/
def isCreated : Option SignupOutcome → Bool
  | some (SignupOutcome.created _) => true
  | _ => false

/-- Invariant of the race: a request that reached the success page has put
its row into the store, and the two requests never both reach it. -/
def raceInv (nid : String) (s : RaceState) : Prop :=
  (isCreated s.t1.outcome = true → hasNID s.store nid = true) ∧
  (isCreated s.t2.outcome = true → hasNID s.store nid = true) ∧
  ¬(isCreated s.t1.outcome = true ∧ isCreated s.t2.outcome = true)

/-- A fully valid registration input (the worked example of the spec). -/
def fGood : Signup :=
  { username := "testuser", email := "test@example.com", password := "testpass",
    Re_password := "testpass", Fname := "Test", Lname := "User",
    NID := "123456789", BD := "2000-01-01" }

/-- The row `fGood` persists. -/
def pGood : Patient :=
  ⟨"123456789", "testuser", "testpass", "test@example.com", "Test", "User", ⟨2000, 1, 1⟩⟩

/-- A second registration input reusing the identifier of `fGood`. -/
def fDup : Signup :=
  { username := "anotheruser", email := "another@example.com", password := "pass123",
    Re_password := "pass123", Fname := "Another", Lname := "User",
    NID := "123456789", BD := "1990-01-01" }

/-- A registration input that is valid except for an empty username. -/
def fNoUser : Signup :=
  { username := "", email := "ab@example.com", password := "abc",
    Re_password := "abc", Fname := "Test", Lname := "User",
    NID := "123456789", BD := "2000-01-01" }

/-- A registration input with an invalid email syntax (the spec's example). -/
def fBadEmail : Signup :=
  { username := "testuser", email := "not-an-email", password := "testpass",
    Re_password := "testpass", Fname := "Test", Lname := "User",
    NID := "987654321", BD := "2000-01-01" }

/-- A registration input whose confirmation differs from the password. -/
def fMismatch : Signup :=
  { username := "testuser", email := "test@example.com", password := "testpass",
    Re_password := "otherpass", Fname := "Test", Lname := "User",
    NID := "123456789", BD := "2000-01-01" }

/-- First racing insert for the concurrency model. -/
def pAlice : Patient :=
  ⟨"123456789", "alice", "passA", "alice@example.com", "Al", "Ice", ⟨2000, 1, 1⟩⟩

/-- Second racing insert, same identifier as `pAlice`. -/
def pBob : Patient :=
  ⟨"123456789", "bob", "passB", "bob@example.com", "Bo", "Bb", ⟨1990, 1, 1⟩⟩

/-! Helper lemmas. -/

theorem validateSignupFields_iff (f : Signup) :
    validateSignupFields f = true ↔
      (dataRequired f.username = true ∧ f.username.length ≤ 20 ∧
       dataRequired f.email = true ∧ isValidEmail f.email = true ∧
       dataRequired f.password = true ∧ 3 ≤ f.password.length ∧ f.password.length ≤ 20 ∧
       dataRequired f.Re_password = true ∧ f.Re_password = f.password ∧
       dataRequired f.Fname = true ∧ f.Fname.length ≤ 10 ∧
       dataRequired f.Lname = true ∧ f.Lname.length ≤ 10 ∧
       dataRequired f.NID = true) := by
  simp [validateSignupFields, Bool.and_eq_true, decide_eq_true_eq, beq_iff_eq, and_assoc]

theorem validateSignup_eq_true_iff (f : Signup) :
    validateSignup f = true ↔
      (validateSignupFields f = true ∧ (parseDate f.BD).isSome = true) := by
  simp [validateSignup]

theorem signup_of_invalid_fields {f : Signup} (h : validateSignupFields f = false)
    (fault : Bool) (st : Store) :
    signup fault st f = (SignupOutcome.validationError, st) := by
  unfold signup
  cases hp : parseDate f.BD with
  | none => rfl
  | some bd => simp [h]

theorem signup_of_no_date {f : Signup} (h : parseDate f.BD = none)
    (fault : Bool) (st : Store) :
    signup fault st f = (SignupOutcome.validationError, st) := by
  unfold signup
  rw [h]

theorem signup_duplicate_eq {st : Store} {f : Signup} {p : Patient}
    (hv : validateSignupFields f = true) (hbd : (parseDate f.BD).isSome = true)
    (hdup : st.find? (fun q => q.NID == f.NID) = some p) :
    signup false st f = (SignupOutcome.duplicate, st) := by
  unfold signup
  cases hp : parseDate f.BD with
  | none => rw [hp] at hbd; simp at hbd
  | some bd =>
    simp only [hv, if_true]
    unfold signupTry dbQuery
    simp [hdup]

theorem signup_fresh_eq {st : Store} {f : Signup} {bd : DateVal}
    (hv : validateSignupFields f = true) (hbd : parseDate f.BD = some bd)
    (hfresh : st.find? (fun q => q.NID == f.NID) = none) :
    signup false st f =
      (SignupOutcome.created (renderCreated f.username f.NID f.email f.Fname f.Lname bd),
       st ++ [mkPatient f bd]) := by
  have hre : f.Re_password = f.password := ((validateSignupFields_iff f).1 hv).2.2.2.2.2.2.2.2.1
  unfold signup
  rw [hbd]
  simp only [hv, if_true]
  unfold signupTry dbQuery dbCommit hasNID
  simp [hfresh, hre, mkPatient]

theorem hasNID_append (st : Store) (p : Patient) (nid : String) :
    hasNID (st ++ [p]) nid = (hasNID st nid || (p.NID == nid)) := by
  unfold hasNID
  rw [List.find?_append]
  cases h : st.find? (fun q => q.NID == nid) with
  | none =>
    simp only [List.find?, Option.or]
    cases hpn : p.NID == nid <;> rfl
  | some q => simp [Option.or]

theorem find?_map_password (st : Store) (pwf : Patient → String) (nid : String) :
    (st.map (fun p => { p with password := pwf p })).find? (fun p => p.NID == nid) =
      Option.map (fun p => { p with password := pwf p })
        (st.find? (fun p => p.NID == nid)) := by
  rw [List.find?_map]
  rfl

/-! Claim theorems. -/

/-- Claim C1: a registration attempt whose national id equals that of an
already-stored record fails with the duplicate outcome — distinct from a
validation failure — and the store is left exactly as it was, so the prior
record keeps all its field values and no new row is written. -/
theorem C1_duplicate_rejected (st : Store) (f : Signup) (p : Patient)
    (hv : validateSignup f = true)
    (hdup : st.find? (fun q => q.NID == f.NID) = some p) :
    signup false st f = (SignupOutcome.duplicate, st) ∧
      SignupOutcome.duplicate ≠ SignupOutcome.validationError := by
  obtain ⟨hvf, hbd⟩ := (validateSignup_eq_true_iff f).1 hv
  exact ⟨signup_duplicate_eq hvf hbd hdup, by simp⟩

/-- Witness for C1 at the spec's worked example: re-registering the stored
identifier 123456789 yields the duplicate outcome and an unchanged store. -/
theorem C1_duplicate_rejected_witness :
    signup false [pGood] fDup = (SignupOutcome.duplicate, [pGood]) ∧
      SignupOutcome.duplicate ≠ SignupOutcome.validationError :=
  C1_duplicate_rejected [pGood] fDup pGood (by decide) (by decide)

/-- Claim C2: a valid registration input with a fresh identifier succeeds,
appending exactly the submitted data as a new row, and a subsequent search
with the same identifier finds exactly that row. -/
theorem C2_insert_then_find (st : Store) (f : Signup) (bd : DateVal)
    (hv : validateSignup f = true)
    (hbd : parseDate f.BD = some bd)
    (hfresh : st.find? (fun q => q.NID == f.NID) = none) :
    signup false st f =
      (SignupOutcome.created (renderCreated f.username f.NID f.email f.Fname f.Lname bd),
       st ++ [mkPatient f bd]) ∧
    (st ++ [mkPatient f bd]).find? (fun q => q.NID == f.NID) = some (mkPatient f bd) ∧
    search false (st ++ [mkPatient f bd]) ⟨f.NID⟩ =
      SearchOutcome.found (renderFound (mkPatient f bd)) := by
  obtain ⟨hvf, _⟩ := (validateSignup_eq_true_iff f).1 hv
  have hfind : (st ++ [mkPatient f bd]).find? (fun q => q.NID == f.NID) =
      some (mkPatient f bd) := by
    rw [List.find?_append, hfresh]
    simp [List.find?, mkPatient]
  refine ⟨signup_fresh_eq hvf hbd hfresh, hfind, ?_⟩
  unfold search searchTry dbQuery
  simp [hfind]

/-- Witness for C2 at the spec's worked example on the empty store. -/
theorem C2_insert_then_find_witness :
    signup false [] fGood =
      (SignupOutcome.created
        (renderCreated "testuser" "123456789" "test@example.com" "Test" "User" ⟨2000, 1, 1⟩),
       [mkPatient fGood ⟨2000, 1, 1⟩]) ∧
    ([] ++ [mkPatient fGood ⟨2000, 1, 1⟩]).find? (fun q => q.NID == fGood.NID) =
      some (mkPatient fGood ⟨2000, 1, 1⟩) ∧
    search false ([] ++ [mkPatient fGood ⟨2000, 1, 1⟩]) ⟨fGood.NID⟩ =
      SearchOutcome.found (renderFound (mkPatient fGood ⟨2000, 1, 1⟩)) :=
  C2_insert_then_find [] fGood ⟨2000, 1, 1⟩ (by decide) (by decide) rfl

/-- Claim C3 counterexample: the search handler performs no validation at
all, so an empty identifier does not produce an invalid-input outcome: the
submission proceeds to the find operation (under a store fault it reaches the
database and reports the database error) and on the empty store it reports
the ordinary not-found outcome — even though the `Search` form's own
`DataRequired` validator would have rejected the empty token. -/
theorem C3_counterexample :
    dataRequired "" = false ∧
      search false [] ⟨""⟩ = SearchOutcome.notFound ∧
      search true [] ⟨""⟩ = SearchOutcome.dbError := by
  decide

/-- Claim C3 (amended): every search submission — the empty identifier
included — proceeds directly to the find operation, and its outcome is
found or not-found according to the store's content. -/
theorem C3_amended_no_validation (st : Store) (f : Search) :
    (st.find? (fun p => p.NID == f.NID) = none ∧
      search false st f = SearchOutcome.notFound) ∨
    (∃ p, st.find? (fun q => q.NID == f.NID) = some p ∧
      search false st f = SearchOutcome.found (renderFound p)) := by
  cases h : st.find? (fun p => p.NID == f.NID) with
  | none =>
    left
    exact ⟨rfl, by unfold search searchTry dbQuery; simp [h]⟩
  | some p =>
    right
    exact ⟨p, rfl, by unfold search searchTry dbQuery; simp [h]⟩

/-- Claim C4 counterexample: a registration input that leaves the username
empty while satisfying every other constraint is not accepted: validation
fails, the outcome is a validation error, and no record is persisted. -/
theorem C4_counterexample :
    validateSignup fNoUser = false ∧
      signup false [] fNoUser = (SignupOutcome.validationError, []) := by
  decide

/-- Claim C4 (amended): username, email, first name, last name and birth
date are all required — a registration input that leaves any of them empty
is rejected with a validation error, whatever the rest of the input and the
state of the store. -/
theorem C4_required_fields (fault : Bool) (st : Store) (f : Signup)
    (h : f.username = "" ∨ f.email = "" ∨ f.Fname = "" ∨ f.Lname = "" ∨ f.BD = "") :
    signup fault st f = (SignupOutcome.validationError, st) := by
  cases hvf : validateSignupFields f with
  | false => exact signup_of_invalid_fields hvf fault st
  | true =>
    have hc := (validateSignupFields_iff f).1 hvf
    rcases h with h | h | h | h | h
    · exact absurd hc.1 (by rw [h]; decide)
    · exact absurd hc.2.2.1 (by rw [h]; decide)
    · exact absurd hc.2.2.2.2.2.2.2.2.2.1 (by rw [h]; decide)
    · exact absurd hc.2.2.2.2.2.2.2.2.2.2.2.1 (by rw [h]; decide)
    · exact signup_of_no_date (by rw [h]; decide) fault st

/-- Witness for the amended C4: the empty-username input is rejected even
with the store faulted (no store operation is needed to reject it). -/
theorem C4_required_fields_witness :
    signup true [] fNoUser = (SignupOutcome.validationError, []) :=
  C4_required_fields true [] fNoUser (Or.inl rfl)

/-- Claim C5: a submission whose password and confirmation differ yields a
validation error and leaves the store untouched; the result is the same for
every state of the persistence layer, faulted or not, because no store
operation (neither the exists check nor the insert) is ever attempted. -/
theorem C5_password_mismatch (fault : Bool) (st : Store) (f : Signup)
    (h : f.password ≠ f.Re_password) :
    signup fault st f = (SignupOutcome.validationError, st) := by
  cases hvf : validateSignupFields f with
  | false => exact signup_of_invalid_fields hvf fault st
  | true =>
    have hc := (validateSignupFields_iff f).1 hvf
    exact absurd hc.2.2.2.2.2.2.2.2.1.symm h

/-- Witness for C5, with the store faulted to exhibit that the mismatch is
decided before any persistence call. -/
theorem C5_password_mismatch_witness :
    signup true [pGood] fMismatch = (SignupOutcome.validationError, [pGood]) :=
  C5_password_mismatch true [pGood] fMismatch (by decide)

/-- Claim C6: searching an identifier for which no record is stored finds
nothing — the query returns the empty result and the user-visible outcome is
the ordinary not-found page, not an error. -/
theorem C6_absent_not_found (st : Store) (nid : String)
    (h : ∀ p ∈ st, p.NID ≠ nid) :
    st.find? (fun p => p.NID == nid) = none ∧
      search false st ⟨nid⟩ = SearchOutcome.notFound := by
  have hf : st.find? (fun p => p.NID == nid) = none :=
    List.find?_eq_none.2 (fun x hx => by simpa using h x hx)
  exact ⟨hf, by unfold search searchTry dbQuery; simp [hf]⟩

/-- Witness for C6: the spec's example `find(999999999)` against a store
holding only the identifier 123456789. -/
theorem C6_absent_not_found_witness :
    List.find? (fun p => p.NID == "999999999") [pGood] = none ∧
      search false [pGood] ⟨"999999999"⟩ = SearchOutcome.notFound :=
  C6_absent_not_found [pGood] "999999999" (by decide)

/-- Claim C7: signup validation passes exactly when the username is present
with at most 20 characters, the email is present and syntactically valid,
the password has 3 to 20 characters and equals its present confirmation, the
first and last names are present with at most 10 characters each, the
national id is present, and the birth date parses; and whenever validation
fails the request aborts with the validation-error outcome before any store
operation, for every state of the persistence layer. -/
theorem C7_validation_rules (f : Signup) :
    (validateSignup f = true ↔
      (dataRequired f.username = true ∧ f.username.length ≤ 20 ∧
       dataRequired f.email = true ∧ isValidEmail f.email = true ∧
       dataRequired f.password = true ∧ 3 ≤ f.password.length ∧ f.password.length ≤ 20 ∧
       dataRequired f.Re_password = true ∧ f.Re_password = f.password ∧
       dataRequired f.Fname = true ∧ f.Fname.length ≤ 10 ∧
       dataRequired f.Lname = true ∧ f.Lname.length ≤ 10 ∧
       dataRequired f.NID = true ∧ (parseDate f.BD).isSome = true)) ∧
    (validateSignup f = false →
      ∀ (fault : Bool) (st : Store),
        signup fault st f = (SignupOutcome.validationError, st)) := by
  constructor
  · constructor
    · intro hv
      obtain ⟨hvf, hbd⟩ := (validateSignup_eq_true_iff f).1 hv
      have hc := (validateSignupFields_iff f).1 hvf
      exact ⟨hc.1, hc.2.1, hc.2.2.1, hc.2.2.2.1, hc.2.2.2.2.1, hc.2.2.2.2.2.1,
        hc.2.2.2.2.2.2.1, hc.2.2.2.2.2.2.2.1, hc.2.2.2.2.2.2.2.2.1,
        hc.2.2.2.2.2.2.2.2.2.1, hc.2.2.2.2.2.2.2.2.2.2.1,
        hc.2.2.2.2.2.2.2.2.2.2.2.1, hc.2.2.2.2.2.2.2.2.2.2.2.2.1,
        hc.2.2.2.2.2.2.2.2.2.2.2.2.2, hbd⟩
    · intro hr
      refine (validateSignup_eq_true_iff f).2 ⟨(validateSignupFields_iff f).2 ?_, hr.2.2.2.2.2.2.2.2.2.2.2.2.2.2⟩
      exact ⟨hr.1, hr.2.1, hr.2.2.1, hr.2.2.2.1, hr.2.2.2.2.1, hr.2.2.2.2.2.1,
        hr.2.2.2.2.2.2.1, hr.2.2.2.2.2.2.2.1, hr.2.2.2.2.2.2.2.2.1,
        hr.2.2.2.2.2.2.2.2.2.1, hr.2.2.2.2.2.2.2.2.2.2.1,
        hr.2.2.2.2.2.2.2.2.2.2.2.1, hr.2.2.2.2.2.2.2.2.2.2.2.2.1,
        hr.2.2.2.2.2.2.2.2.2.2.2.2.2.1⟩
  · intro hv fault st
    cases hvf : validateSignupFields f with
    | false => exact signup_of_invalid_fields hvf fault st
    | true =>
      cases hp : parseDate f.BD with
      | none => exact signup_of_no_date hp fault st
      | some bd =>
        rw [validateSignup, hvf, hp] at hv
        simp at hv

/-- Witness for C7 at the spec's example `"not-an-email"`: the input fails
validation and aborts with the validation-error outcome, store untouched. -/
theorem C7_validation_rules_witness :
    signup false [] fBadEmail = (SignupOutcome.validationError, []) :=
  (C7_validation_rules fBadEmail).2 (by decide) false []

/-- Claim C8: when the persistence layer faults, the signup handler (past
validation) and the search handler both catch the fault and surface the
generic database-error outcome, leaving the store as it was; the handlers
are total functions, so the fault never propagates to the caller. -/
theorem C8_fault_caught (st : Store) (f : Signup) (g : Search) :
    (validateSignup f = true → signup true st f = (SignupOutcome.dbError, st)) ∧
      search true st g = SearchOutcome.dbError := by
  constructor
  · intro hv
    obtain ⟨hvf, hbd⟩ := (validateSignup_eq_true_iff f).1 hv
    cases hp : parseDate f.BD with
    | none => rw [hp] at hbd; simp at hbd
    | some bd =>
      unfold signup
      rw [hp]
      simp only [hvf, if_true]
      unfold signupTry dbQuery
      simp
  · unfold search searchTry dbQuery
    simp

/-- Witness for C8: a faulted store turns the valid example registration and
a search both into the generic database-error outcome. -/
theorem C8_fault_caught_witness :
    signup true [] fGood = (SignupOutcome.dbError, []) ∧
      search true [] ⟨"123456789"⟩ = SearchOutcome.dbError :=
  ⟨(C8_fault_caught [] fGood ⟨"123456789"⟩).1 (by decide),
   (C8_fault_caught [] fGood ⟨"123456789"⟩).2⟩

theorem threadStep_props (p : Patient) (ts : ThreadState) (st : Store) :
    (∀ n, hasNID st n = true → hasNID (threadStep p ts st).2 n = true) ∧
    (isCreated (threadStep p ts st).1.outcome = true →
      isCreated ts.outcome = true ∨ hasNID st p.NID = false) ∧
    (isCreated (threadStep p ts st).1.outcome = true →
      hasNID (threadStep p ts st).2 p.NID = true ∨ isCreated ts.outcome = true) := by
  unfold threadStep dbQuery dbCommit
  cases hc : ts.checked with
  | none =>
    cases hf : st.find? (fun q => q.NID == p.NID) with
    | some q =>
      refine ⟨fun n h => by simpa using h, fun h => ?_, fun h => ?_⟩ <;>
        simp [isCreated] at h
    | none =>
      refine ⟨fun n h => by simpa using h, fun h => ?_, fun h => ?_⟩
      · simp at h
        exact Or.inl h
      · simp at h
        exact Or.inr h
  | some b =>
    cases b with
    | true =>
      refine ⟨fun n h => by simpa using h, fun h => ?_, fun h => ?_⟩
      · simp at h
        exact Or.inl h
      · simp at h
        exact Or.inr h
    | false =>
      cases ho : ts.outcome with
      | some o =>
        refine ⟨fun n h => by simpa using h, fun h => ?_, fun h => ?_⟩
        · simp at h
          rw [ho] at h
          exact Or.inl h
        · simp at h
          rw [ho] at h
          exact Or.inr h
      | none =>
        cases hn : hasNID st p.NID with
        | true =>
          refine ⟨fun n h => by simpa using h, fun h => ?_, fun h => ?_⟩ <;>
            simp [isCreated] at h
        | false =>
          refine ⟨fun n h => ?_, fun h => Or.inr rfl, fun h => Or.inl ?_⟩
          · simp [hasNID_append, h]
          · simp [hasNID_append]

theorem raceStep_inv {nid : String} {p1 p2 : Patient}
    (h1 : p1.NID = nid) (h2 : p2.NID = nid) {s : RaceState}
    (hi : raceInv nid s) (c : Bool) : raceInv nid (raceStep p1 p2 s c) := by
  obtain ⟨i1, i2, i12⟩ := hi
  cases c with
  | true =>
    obtain ⟨mono, newc, hasn⟩ := threadStep_props p1 s.t1 s.store
    rw [h1] at newc hasn
    refine ⟨fun h => ?_, fun h => ?_, fun h => ?_⟩
    · rcases hasn h with hh | hh
      · exact hh
      · exact mono nid (i1 hh)
    · exact mono nid (i2 h)
    · obtain ⟨ha, hb⟩ := h
      rcases newc ha with hh | hh
      · exact i12 ⟨hh, hb⟩
      · exact absurd (i2 hb) (by simp [hh])
  | false =>
    obtain ⟨mono, newc, hasn⟩ := threadStep_props p2 s.t2 s.store
    rw [h2] at newc hasn
    refine ⟨fun h => ?_, fun h => ?_, fun h => ?_⟩
    · exact mono nid (i1 h)
    · rcases hasn h with hh | hh
      · exact hh
      · exact mono nid (i2 hh)
    · obtain ⟨ha, hb⟩ := h
      rcases newc hb with hh | hh
      · exact i12 ⟨ha, hh⟩
      · exact absurd (i1 ha) (by simp [hh])

theorem raceRun_inv {nid : String} {p1 p2 : Patient}
    (h1 : p1.NID = nid) (h2 : p2.NID = nid) (sched : List Bool) {s : RaceState}
    (hi : raceInv nid s) : raceInv nid (raceRun p1 p2 sched s) := by
  induction sched generalizing s with
  | nil => exact hi
  | cons c rest ih => exact ih (raceStep_inv h1 h2 hi c)

/-- Claim C9 counterexample: under the schedule check-1, check-2, insert-1,
insert-2 for the same identifier, the first request reaches the success page
but the second — whose uniqueness check preceded the first commit — ends
with the generic database-error outcome raised by the primary-key
constraint, not with the duplicate outcome the claim promises. -/
theorem C9_counterexample :
    isCreated (raceRun pAlice pBob [true, false, true, false]
      ⟨initThread, initThread, []⟩).t1.outcome = true ∧
    (raceRun pAlice pBob [true, false, true, false]
      ⟨initThread, initThread, []⟩).t2.outcome = some SignupOutcome.dbError ∧
    SignupOutcome.dbError ≠ SignupOutcome.duplicate := by
  decide

/-- Claim C9 (amended): for two concurrent registration attempts with the
same national id, at most one ever reaches the success page under every
interleaving of their store operations and from every initial store — the
primary-key constraint enforced at commit, not the handler's check-then-act
sequence, guarantees it; the losing attempt observes the duplicate outcome
or the generic database-error outcome. -/
theorem C9_at_most_one_success (p1 p2 : Patient) (h : p2.NID = p1.NID)
    (sched : List Bool) (st0 : Store) :
    ¬(isCreated (raceRun p1 p2 sched ⟨initThread, initThread, st0⟩).t1.outcome = true ∧
      isCreated (raceRun p1 p2 sched ⟨initThread, initThread, st0⟩).t2.outcome = true) :=
  (raceRun_inv rfl h sched
    ⟨fun hh => by simp [initThread, isCreated] at hh,
     fun hh => by simp [initThread, isCreated] at hh,
     fun hh => by simp [initThread, isCreated] at hh⟩).2.2

/-- Witness for the amended C9 at the concrete racing pair and the schedule
of the counterexample. -/
theorem C9_at_most_one_success_witness :
    ¬(isCreated (raceRun pAlice pBob [true, false, true, false]
        ⟨initThread, initThread, []⟩).t1.outcome = true ∧
      isCreated (raceRun pAlice pBob [true, false, true, false]
        ⟨initThread, initThread, []⟩).t2.outcome = true) :=
  C9_at_most_one_success pAlice pBob rfl [true, false, true, false] []

/-- Claim C10: no user-visible output contains the stored password.
Rewriting every stored password changes no search response (the found page
shows only username, national id and mail), and changing a registration's
password (keeping it valid and confirmed) changes nothing in the rendered
signup response, whose success page shows only username, national id, mail,
first name, last name and birth date. -/
theorem C10_password_never_displayed :
    (∀ (st : Store) (g : Search) (pwf : Patient → String),
      search false (st.map (fun p => { p with password := pwf p })) g = search false st g) ∧
    (∀ (st : Store) (f : Signup) (pw : String),
      validateSignupFields f = true → dataRequired pw = true →
      3 ≤ pw.length → pw.length ≤ 20 →
      (signup false st { f with password := pw, Re_password := pw }).1 =
        (signup false st f).1) := by
  constructor
  · intro st g pwf
    unfold search searchTry dbQuery
    rw [find?_map_password]
    cases h : st.find? (fun p => p.NID == g.NID) with
    | none => rfl
    | some p => rfl
  · intro st f pw hv hdr hlo hhi
    have hc := (validateSignupFields_iff f).1 hv
    have hv2 : validateSignupFields { f with password := pw, Re_password := pw } = true := by
      refine (validateSignupFields_iff _).2 ?_
      exact ⟨hc.1, hc.2.1, hc.2.2.1, hc.2.2.2.1, hdr, hlo, hhi, hdr, rfl,
        hc.2.2.2.2.2.2.2.2.2.1, hc.2.2.2.2.2.2.2.2.2.2.1,
        hc.2.2.2.2.2.2.2.2.2.2.2.1, hc.2.2.2.2.2.2.2.2.2.2.2.2.1,
        hc.2.2.2.2.2.2.2.2.2.2.2.2.2⟩
    cases hp : parseDate f.BD with
    | none =>
      have e1 : signup false st { f with password := pw, Re_password := pw } =
          (SignupOutcome.validationError, st) :=
        @signup_of_no_date { f with password := pw, Re_password := pw } hp false st
      have e2 : signup false st f = (SignupOutcome.validationError, st) :=
        signup_of_no_date hp false st
      rw [e1, e2]
    | some bd =>
      cases hf : st.find? (fun q => q.NID == f.NID) with
      | some p =>
        have e1 : signup false st { f with password := pw, Re_password := pw } =
            (SignupOutcome.duplicate, st) :=
          @signup_duplicate_eq st { f with password := pw, Re_password := pw } p hv2
            (show (parseDate f.BD).isSome = true by rw [hp]; rfl) hf
        have e2 : signup false st f = (SignupOutcome.duplicate, st) :=
          signup_duplicate_eq hv (by rw [hp]; rfl) hf
        rw [e1, e2]
      | none =>
        have e1 : signup false st { f with password := pw, Re_password := pw } =
            (SignupOutcome.created (renderCreated f.username f.NID f.email f.Fname f.Lname bd),
             st ++ [mkPatient { f with password := pw, Re_password := pw } bd]) :=
          @signup_fresh_eq st { f with password := pw, Re_password := pw } bd hv2 hp hf
        have e2 : signup false st f =
            (SignupOutcome.created (renderCreated f.username f.NID f.email f.Fname f.Lname bd),
             st ++ [mkPatient f bd]) :=
          signup_fresh_eq hv hp hf
        rw [e1, e2]

/-- Witness for C10: rewriting the stored password leaves the search output
unchanged, and re-registering the example with a different password renders
the same response page. -/
theorem C10_password_never_displayed_witness :
    search false ([pGood].map (fun p => { p with password := "hunter2" })) ⟨"123456789"⟩ =
      search false [pGood] ⟨"123456789"⟩ ∧
    (signup false [] { fGood with password := "newpass", Re_password := "newpass" }).1 =
      (signup false [] fGood).1 :=
  ⟨(C10_password_never_displayed).1 [pGood] ⟨"123456789"⟩ (fun _ => "hunter2"),
   (C10_password_never_displayed).2 [] fGood "newpass" (by decide) (by decide)
     (by decide) (by decide)⟩

end PatientRegistry
